import Mathlib

/-
Verification of the incremental multi-station correlation engine
(wmpl/Trajectory/CorrelateRMS.py) against its design specification.

The Python source is shallowly embedded: pixel coordinates, times and
frame numbers become rationals, Python lists become Lean lists, Python
dictionaries become association lists, and operations that can raise an
IndexError are modelled as Option-returning functions (none = the
exception).  Every definition follows the corresponding source function
line by line.
-/

namespace CorrelateRMS

/-- Container for individual meteor picks (class MeteorPointRMS).
Fields mirror the constructor arguments; `mag` is optional because the
magnitude may be missing. -/
structure MeteorPointRMS where
  frame : ℚ
  time_rel : ℚ
  x : ℚ
  y : ℚ
  ra : ℚ
  dec : ℚ
  azim : ℚ
  alt : ℚ
  mag : Option ℚ
deriving DecidableEq

/-- The fields of the dynamically built PlateparDummy object that the
field-of-view estimation in MeteorObsRMS reads: the sensor frame
resolution. -/
structure PlateparDummy where
  X_res : ℚ
  Y_res : ℚ
deriving DecidableEq

/-- The midpoint index `half_index = len(data)//2` computed in
MeteorObsRMS from the original, untrimmed pick sequence. -/
def halfIndex (data : List MeteorPointRMS) : Nat :=
  data.length / 2

/-- The point extrapolated two frames before the first pick, using the
average per-frame pixel velocity between pick 0 and pick `half_index`
(source lines 144-152): `x_pre_begin = x[0] - 2*dxdf_beg`, and likewise
for y.  Returns none when an index is out of range (Python IndexError). -/
def preBeginPoint (data : List MeteorPointRMS) : Option (ℚ × ℚ) :=
  match data.get? 0, data.get? (halfIndex data) with
  | some p0, some ph =>
      let dxdf_beg := (ph.x - p0.x) / (ph.frame - p0.frame)
      let dydf_beg := (ph.y - p0.y) / (ph.frame - p0.frame)
      some (p0.x - 2 * dxdf_beg, p0.y - 2 * dydf_beg)
  | _, _ => none

/-- The begin-of-track field-of-view acceptance test exactly as written
at source lines 155-156: `x > 0 and x <= X_res and y > 0 and y < Y_res`.
Note the closed upper bound on x and the strict upper bound on y. -/
def fovBegAccept (x y X_res Y_res : ℚ) : Prop :=
  x > 0 ∧ x ≤ X_res ∧ y > 0 ∧ y < Y_res

instance (x y X_res Y_res : ℚ) : Decidable (fovBegAccept x y X_res Y_res) := by
  unfold fovBegAccept; infer_instance

/-- The end-of-track field-of-view acceptance test exactly as written at
source lines 176-177: `x > 0 and x <= X_res and y > 0 and y <= Y_res`.
Both upper bounds are closed. -/
def fovEndAccept (x y X_res Y_res : ℚ) : Prop :=
  x > 0 ∧ x ≤ X_res ∧ y > 0 ∧ y ≤ Y_res

instance (x y X_res Y_res : ℚ) : Decidable (fovEndAccept x y X_res Y_res) := by
  unfold fovEndAccept; infer_instance

/-- The begin-of-track stage of MeteorObsRMS (source lines 144-162): if
the extrapolated pre-begin point passes the acceptance test, `fov_beg`
is set true and the data is kept; otherwise `fov_beg` stays false and
the first pick is dropped (`self.data = self.data[1:]`). -/
def fovBegStage (data : List MeteorPointRMS) (pp : PlateparDummy) :
    Option (Bool × List MeteorPointRMS) :=
  match preBeginPoint data with
  | some (x_pre_begin, y_pre_begin) =>
      if fovBegAccept x_pre_begin y_pre_begin pp.X_res pp.Y_res then
        some (true, data)
      else
        some (false, data.drop 1)
  | none => none

/-- The point extrapolated two frames after the last pick, using the
average per-frame pixel velocity between pick `half_index` and the last
pick of the (possibly already trimmed) working sequence (source lines
165-173).  `data[-1]` is the last element; indexing `data[half_index]`
past the end is a Python IndexError, modelled by none. -/
def postEndPoint (half_index : Nat) (data : List MeteorPointRMS) : Option (ℚ × ℚ) :=
  match data.get? (data.length - 1), data.get? half_index with
  | some plast, some ph =>
      let dxdf_end := (plast.x - ph.x) / (plast.frame - ph.frame)
      let dydf_end := (plast.y - ph.y) / (plast.frame - ph.frame)
      some (plast.x + 2 * dxdf_end, plast.y + 2 * dydf_end)
  | _, _ => none

/-- The end-of-track stage of MeteorObsRMS (source lines 165-183): if
the extrapolated post-end point passes the acceptance test, `fov_end` is
set true and the data is kept; otherwise the last pick is dropped
(`self.data = self.data[:-1]`). -/
def fovEndStage (half_index : Nat) (data : List MeteorPointRMS) (pp : PlateparDummy) :
    Option (Bool × List MeteorPointRMS) :=
  match postEndPoint half_index data with
  | some (x_post_end, y_post_end) =>
      if fovEndAccept x_post_end y_post_end pp.X_res pp.Y_res then
        some (true, data)
      else
        some (false, data.dropLast)
  | none => none

/-- The complete field-of-view estimation performed by the MeteorObsRMS
constructor (source lines 136-185): the begin stage runs on the original
sequence, the end stage runs on the possibly trimmed sequence but with
`half_index` still computed from the original length.  The result is
`(fov_beg, fov_end, trimmed data)`; none models a Python IndexError
aborting the constructor. -/
def fovProcess (data : List MeteorPointRMS) (pp : PlateparDummy) :
    Option (Bool × Bool × List MeteorPointRMS) :=
  match fovBegStage data pp with
  | some (fov_beg, data1) =>
      match fovEndStage (halfIndex data) data1 pp with
      | some (fov_end, data2) => some (fov_beg, fov_end, data2)
      | none => none
  | none => none

/-- The data-model invariant on pick sequences: frame indices are
strictly increasing along the sequence. -/
def framesStrictlyIncreasing : List MeteorPointRMS → Bool
  | a :: b :: rest => decide (a.frame < b.frame) && framesStrictlyIncreasing (b :: rest)
  | _ => true

/-- A pick with the given frame number and pixel coordinates; the
remaining fields are irrelevant to the field-of-view estimation. -/
def mkPick (frame x y : ℚ) : MeteorPointRMS :=
  ⟨frame, 0, x, y, 0, 0, 0, 0, none⟩

/-- A 720x576 sensor, the resolution used by the specification's
field-of-view trimming test vector. -/
def pp720 : PlateparDummy := ⟨720, 576⟩

/-- Five picks whose extrapolated pre-begin point is (-5, 10): with
half index 2, the begin velocity is (10, 5) px/frame, so the point two
frames before pick (15, 20) is (-5, 10). -/
def fovTrimOutsideData : List MeteorPointRMS :=
  [mkPick 0 15 20, mkPick 1 25 25, mkPick 2 35 30, mkPick 3 45 35, mkPick 4 55 40]

/-- Four picks whose extrapolated pre-begin point is (100, 100): with
half index 2, the begin velocity is (10, 10) px/frame, so the point two
frames before pick (120, 120) is (100, 100). -/
def fovTrimInsideData : List MeteorPointRMS :=
  [mkPick 0 120 120, mkPick 1 130 130, mkPick 2 140 140, mkPick 3 150 150]

/-- A minimal valid pick sequence (2 picks, strictly increasing frames)
whose extrapolated pre-begin point (-80, 0) is outside the field of
view, so the first pick is dropped before the end-of-track stage runs. -/
def twoPickData : List MeteorPointRMS :=
  [mkPick 0 10 10, mkPick 1 100 20]

/-- Two coincident-position picks whose extrapolated pre-begin point is
exactly (720, 10): the x coordinate sits exactly on the right frame
border X_res = 720. -/
def borderBeginData : List MeteorPointRMS :=
  [mkPick 0 720 10, mkPick 1 720 10]

/-- Modelled from the claim's words, for comparison with the source's
begin-of-track check: a strict upper bound on both axes
(`x < W and y < H`), with strict lower bounds. -/
def specBegAcceptStrict (x y X_res Y_res : ℚ) : Prop :=
  x > 0 ∧ x < X_res ∧ y > 0 ∧ y < Y_res


/-! DatabaseJSON: the processing ledger.  Python dictionaries become
association lists (unique keys, insertion order), Python lists become
Lean lists. -/

/-- The ledger state of class DatabaseJSON: the database file path, the
per-station lists of processed relative directories, and the map of
recorded trajectories keyed by reference julian date. -/
structure DatabaseJSON where
  db_file_path : String
  processed_dirs : List (String × List String)
  trajectories : List (ℚ × String)
deriving DecidableEq

/-- Replace the value stored under a key of an association list,
leaving the list unchanged when the key is absent (the semantics of a
Python dictionary item assignment to an existing key). -/
def dictSet : List (String × List String) → String → List String → List (String × List String)
  | [], _, _ => []
  | (k, old) :: rest, key, v =>
      if k = key then (k, v) :: rest else (k, old) :: dictSet rest key v

/-- DatabaseJSON.addProcessedDir (source lines 67-72): only when the
station is already a key of processed_dirs, and the relative path is not
yet in its list, the path is appended.  A station that is not a key is
silently ignored. -/
def addProcessedDir (db : DatabaseJSON) (station_name rel_proc_path : String) : DatabaseJSON :=
  match db.processed_dirs.lookup station_name with
  | some paths =>
      if rel_proc_path ∈ paths then db
      else { db with
              processed_dirs := dictSet db.processed_dirs station_name (paths ++ [rel_proc_path]) }
  | none => db

/-- DatabaseJSON.addTrajectory (source lines 75-81): the body is `pass`
(the insertion is commented out), so the ledger is returned unchanged. -/
def addTrajectory (db : DatabaseJSON) (traj_jdt_ref : ℚ) (traj_json : String) : DatabaseJSON :=
  db

/-- Whether the trajectories map of the ledger contains the given key. -/
def hasTrajectoryKey (db : DatabaseJSON) (jdt_ref : ℚ) : Bool :=
  db.trajectories.any (fun e => decide (e.1 = jdt_ref))

/-- The sequence of on-disk contents of the database file that a crash
at any point during DatabaseJSON.save (source lines 59-64) can leave
behind.  `open(path, "w")` truncates the file on open, and the
serialized text is then written sequentially, so the possible states are
the old content (crash before open) and every prefix of the new content
(crash after open): `new.take 0 = []` is the state right after the
truncating open.  File contents are modelled as character lists. -/
def saveWriteStates (old new : List Char) : List (List Char) :=
  old :: (List.range (new.length + 1)).map (fun k => new.take k)

/-- Modelled from the claim's words: save is atomic with respect to a
later load when every content a crash can leave on disk is either the
old complete file or the new complete file. -/
def specSaveAtomic (old new : List Char) : Prop :=
  ∀ c ∈ saveWriteStates old new, c = old ∨ c = new


/-! RMSDataHandle: station discovery, work discovery, observation
loading and time pairing. -/

/-- A directory entry seen by os.listdir: its name and whether it is a
directory. -/
structure DirEntry where
  name : String
  isDir : Bool
deriving DecidableEq

/-- A character matched by the regular-expression class [A-Z]. -/
def isUpperChar (c : Char) : Bool :=
  decide ('A' ≤ c) && decide (c ≤ 'Z')

/-- A character matched by the regular-expression class [A-Z0-9]. -/
def isUpperOrDigitChar (c : Char) : Bool :=
  isUpperChar c || (decide ('0' ≤ c) && decide (c ≤ '9'))

/-- Whether a name matches the anchored station-code pattern of source
line 227: exactly two uppercase letters followed by exactly four
uppercase letters or digits (six characters in total). -/
def matchesStationPattern (name : String) : Bool :=
  match name.toList with
  | [a, b, c, d, e, f] =>
      isUpperChar a && isUpperChar b && isUpperOrDigitChar c && isUpperOrDigitChar d &&
        isUpperOrDigitChar e && isUpperOrDigitChar f
  | _ => false

/-- RMSDataHandle.loadStations (source lines 218-234): keep exactly the
directory entries that are directories and whose names match the station
pattern; everything else is skipped with a printed diagnostic. -/
def loadStations : List DirEntry → List String
  | [] => []
  | entry :: rest =>
      if entry.isDir && matchesStationPattern entry.name then
        entry.name :: loadStations rest
      else
        loadStations rest

/-- One entry of the processing list built by findUnprocessedFolders,
together with what the os.listdir scan of its folder and the raw parsers
would yield: whether a usable FTPdetectinfo file is present, whether
platepars_all_recalibrated.json is present, and the observations that
loading the folder produces (opaque here, since the parsers are external
collaborators). -/
structure ProcessingEntry where
  station_code : String
  rel_proc_path : String
  night_dt : Option ℚ
  has_ftpdetectinfo : Bool
  has_platepar_recalibrated : Bool
  observations : List String
deriving DecidableEq

/-- The time-range filter at source lines 311-317: a folder is skipped
exactly when a range is given, the night timestamp parsed, and the
timestamp lies strictly before the range begin or strictly after the
range end.  Timestamps are rationals (seconds on an absolute scale). -/
def nightOutsideRange (dt_range : Option (ℚ × ℚ)) (night_dt : Option ℚ) : Bool :=
  match dt_range, night_dt with
  | some (dt_beg, dt_end), some night => decide (night < dt_beg) || decide (night > dt_end)
  | _, _ => false

/-- RMSDataHandle.loadUnprocessedObservations (source lines 304-388),
threading the ledger explicitly.  Returns the final in-memory ledger,
the trace of ledger states passed to db.save() (one entry per save
call, in call order), and the loaded observations.  Per entry: first the
time-range filter; then, if an input file is missing, the folder is
added to the processed list and skipped WITHOUT reaching the save call
(the `continue` at source line 344 jumps over the save at line 347);
otherwise save() runs and the folder's observations are loaded. -/
def loadUnprocessedObservations (db : DatabaseJSON) :
    List ProcessingEntry → Option (ℚ × ℚ) → DatabaseJSON × List DatabaseJSON × List String
  | [], _ => (db, [], [])
  | entry :: rest, dt_range =>
      if nightOutsideRange dt_range entry.night_dt then
        loadUnprocessedObservations db rest dt_range
      else if !entry.has_ftpdetectinfo || !entry.has_platepar_recalibrated then
        loadUnprocessedObservations (addProcessedDir db entry.station_code entry.rel_proc_path)
          rest dt_range
      else
        let result := loadUnprocessedObservations db rest dt_range
        (result.1, db :: result.2.1, entry.observations ++ result.2.2)

/-- The processing step that loadUnprocessedObservations applies to an
entry once the time-range filter has let it through: either the entry is
missing an input file (marked processed, no save, nothing loaded), or
save() runs and its observations are loaded. -/
def processEntryStep (db : DatabaseJSON) (entry : ProcessingEntry)
    (rest : List ProcessingEntry) (dt_range : Option (ℚ × ℚ)) :
    DatabaseJSON × List DatabaseJSON × List String :=
  if !entry.has_ftpdetectinfo || !entry.has_platepar_recalibrated then
    loadUnprocessedObservations (addProcessedDir db entry.station_code entry.rel_proc_path)
      rest dt_range
  else
    let result := loadUnprocessedObservations db rest dt_range
    (result.1, db :: result.2.1, entry.observations ++ result.2.2)

/-- The part of a MeteorObsRMS object that findTimePairs reads: the
station code and the mean observation datetime (seconds on an absolute
scale; the source compares datetime differences via total_seconds()). -/
structure MeteorObsRMS where
  station_code : String
  mean_dt : ℚ
deriving DecidableEq

/-- RMSDataHandle.findTimePairs (source lines 405-434): walk the pool,
skip observations from the same station, and collect those whose mean
time differs by at most max_toffset seconds in absolute value. -/
def findTimePairs (met_obs : MeteorObsRMS) :
    List MeteorObsRMS → ℚ → List MeteorObsRMS
  | [], _ => []
  | met_obs2 :: rest, max_toffset =>
      if met_obs.station_code = met_obs2.station_code then
        findTimePairs met_obs rest max_toffset
      else if |met_obs.mean_dt - met_obs2.mean_dt| ≤ max_toffset then
        met_obs2 :: findTimePairs met_obs rest max_toffset
      else
        findTimePairs met_obs rest max_toffset


/-! Concrete fixtures used by the theorems below. -/

/-- A decidability instance so that the atomicity of concrete save runs
can be settled by evaluation. -/
instance (old new : List Char) : Decidable (specSaveAtomic old new) := by
  unfold specSaveAtomic; infer_instance

/-- A freshly initialised ledger: both maps empty. -/
def emptyDb : DatabaseJSON :=
  ⟨"processed_trajectories.json", [], []⟩

/-- A ledger in which station XX0001 has been registered by
findUnprocessedFolders but no folder of it processed yet. -/
def registeredDb : DatabaseJSON :=
  ⟨"processed_trajectories.json", [("XX0001", [])], []⟩

/-- The ledger after XX0001's night folder has been marked processed. -/
def markedDb : DatabaseJSON :=
  ⟨"processed_trajectories.json", [("XX0001", ["XX0001/XX0001_20190707_192835_241084"])], []⟩

/-- A processing entry whose FTPdetectinfo file is missing; the folder
would yield one observation if it could be loaded. -/
def brokenEntry : ProcessingEntry :=
  ⟨"XX0001", "XX0001/XX0001_20190707_192835_241084", none, false, true, ["obs1"]⟩

/-- A processing entry with an unparseable folder name (no timestamp)
whose input files are both present. -/
def goodEntry : ProcessingEntry :=
  ⟨"XX0001", "XX0001/badly_named_folder", none, true, true, ["obs2"]⟩

/-- Observation A of the specification's time-pairing test vector. -/
def obsA : MeteorObsRMS := ⟨"AA0001", 100⟩

/-- Observation B: a different station, 4 seconds after A. -/
def obsB : MeteorObsRMS := ⟨"BB0002", 104⟩

/-- Observation C: a third station, 100 seconds after A. -/
def obsC : MeteorObsRMS := ⟨"CC0003", 200⟩

/-- The specification's station-pattern test vector, with every entry a
directory. -/
def stationEntries : List DirEntry :=
  [⟨"AB1234", true⟩, ⟨"ab1234", true⟩, ⟨"A1234", true⟩, ⟨"ABCDEFG", true⟩]


/-! Theorems. -/

/-- Claim C1, counterexample: DatabaseJSON.save is not atomic with
respect to a later load.  With old content "ab" and new content "cd",
the truncating open leaves the empty file on disk, which is neither the
old nor the new complete file; there is no temporary-file-and-rename
step in the source. -/
theorem save_not_atomic_cex : ¬ specSaveAtomic "ab".toList "cd".toList := by
  decide

/-- Claim C1, amended: DatabaseJSON.save opens the database path
directly in write mode (truncating it) and writes the serialized state
sequentially, so a crash during save leaves either the old complete
file or some prefix of the new content — including the empty truncated
file — rather than only the old or new complete file. -/
theorem save_crash_leaves_prefix (old new : List Char) :
    old ∈ saveWriteStates old new ∧
    [] ∈ saveWriteStates old new ∧
    new ∈ saveWriteStates old new ∧
    ∀ c ∈ saveWriteStates old new, c = old ∨ ∃ k, k ≤ new.length ∧ c = new.take k := by
  refine ⟨List.mem_cons_self _ _, ?_, ?_, ?_⟩
  · exact List.mem_cons_of_mem _
      (List.mem_map.2 ⟨0, List.mem_range.2 (Nat.succ_pos _), by simp⟩)
  · exact List.mem_cons_of_mem _
      (List.mem_map.2 ⟨new.length, List.mem_range.2 (Nat.lt_succ_self _), by simp⟩)
  · intro c hc
    rcases List.mem_cons.1 hc with h | h
    · exact Or.inl h
    · rcases List.mem_map.1 h with ⟨k, hk, rfl⟩
      exact Or.inr ⟨k, Nat.lt_succ_iff.1 (List.mem_range.1 hk), rfl⟩

/-- Claim C2, counterexample: after calling addTrajectory on an empty
ledger, the trajectories map does not contain the key — the body of
addTrajectory is `pass`, so nothing is ever inserted. -/
theorem add_trajectory_drops_key_cex :
    hasTrajectoryKey (addTrajectory emptyDb 100 "summary") 100 = false :=
  rfl

/-- Claim C2, amended: addTrajectory is a no-op that leaves the ledger
entirely unchanged: the key is never inserted, any previously stored
value is kept, and a duplicate call is not an error. -/
theorem add_trajectory_noop (db : DatabaseJSON) (traj_jdt_ref : ℚ) (traj_json : String) :
    addTrajectory db traj_jdt_ref traj_json = db :=
  rfl

/-- Claim C3: a processing entry whose FTPdetectinfo file is missing is
marked processed in the in-memory ledger and contributes no
observations, but the ledger is NOT saved at that point: the `continue`
jumps over the db.save() call, which only runs for entries whose input
files are all present.  Here the run's save trace is empty even though
the broken folder was marked. -/
theorem broken_unit_marked_but_not_saved :
    brokenEntry.has_ftpdetectinfo = false ∧
    brokenEntry.observations = ["obs1"] ∧
    loadUnprocessedObservations registeredDb [brokenEntry] none = (markedDb, [], []) ∧
    markedDb.processed_dirs.lookup "XX0001" =
      some ["XX0001/XX0001_20190707_192835_241084"] := by
  refine ⟨rfl, rfl, ?_, rfl⟩
  rfl

/-- Claim C9: calling addProcessedDir with a station that is not yet a
key of processed_dirs leaves the whole ledger unchanged — the relative
path is silently not recorded, no key is created, and no error is
raised. -/
theorem add_processed_dir_unregistered_noop (db : DatabaseJSON) (station_name rel_proc_path : String)
    (h : db.processed_dirs.lookup station_name = none) :
    addProcessedDir db station_name rel_proc_path = db := by
  unfold addProcessedDir
  rw [h]

/-- Witness for claim C9 at a concrete ledger: station YY0002 is not a
key of registeredDb, and the call leaves the ledger unchanged. -/
theorem add_processed_dir_unregistered_noop_witness :
    addProcessedDir registeredDb "YY0002" "YY0002/night" = registeredDb :=
  add_processed_dir_unregistered_noop registeredDb "YY0002" "YY0002/night" (by decide)

/-- Claim C10: a valid 2-pick sequence (strictly increasing frames)
whose extrapolated pre-begin point is outside the field of view crashes
the MeteorObsRMS constructor: the first pick is dropped, but the
end-of-track stage still indexes `data[half_index]` with the midpoint
index of the original length, past the end of the shortened sequence
(a Python IndexError, modelled by none). -/
theorem two_pick_trim_index_oob :
    framesStrictlyIncreasing twoPickData = true ∧
    twoPickData.length = 2 ∧
    fovBegStage twoPickData pp720 = some (false, twoPickData.drop 1) ∧
    fovEndStage (halfIndex twoPickData) (twoPickData.drop 1) pp720 = none ∧
    fovProcess twoPickData pp720 = none := by
  refine ⟨?_, rfl, ?_, ?_, ?_⟩ <;>
    norm_num [framesStrictlyIncreasing, fovProcess, fovBegStage, fovEndStage, preBeginPoint,
      postEndPoint, halfIndex, fovBegAccept, fovEndAccept, twoPickData, mkPick, pp720]

/-- Claim C4, counterexample: the start-of-track check does NOT use a
strict upper bound on the x axis.  A pre-begin point extrapolated to
exactly (X_res, 10) = (720, 10) is accepted by the source's check (the
first pick is kept and fov_beg is set), while the claimed strict bound
x < X_res rejects it. -/
theorem fov_begin_not_strict_on_x_cex :
    preBeginPoint borderBeginData = some (720, 10) ∧
    fovBegStage borderBeginData pp720 = some (true, borderBeginData) ∧
    ¬ specBegAcceptStrict 720 10 pp720.X_res pp720.Y_res := by
  refine ⟨?_, ?_, ?_⟩ <;>
    norm_num [fovBegStage, preBeginPoint, halfIndex, fovBegAccept, specBegAcceptStrict,
      borderBeginData, mkPick, pp720]

/-- Claim C4, amended: the end-of-track boundary check uses a closed
upper bound on both axes (x ≤ X_res and y ≤ Y_res), while the
start-of-track check uses a closed upper bound on x and a strict upper
bound on y (x ≤ X_res and y < Y_res); lower bounds are strict (> 0) in
both checks. -/
theorem fov_boundary_bounds (data trimmed : List MeteorPointRMS) (half_index : Nat)
    (pp : PlateparDummy) (x_pre y_pre x_post y_post : ℚ)
    (hb : preBeginPoint data = some (x_pre, y_pre))
    (he : postEndPoint half_index trimmed = some (x_post, y_post)) :
    (fovBegStage data pp = some (true, data) ↔
      0 < x_pre ∧ x_pre ≤ pp.X_res ∧ 0 < y_pre ∧ y_pre < pp.Y_res) ∧
    (fovEndStage half_index trimmed pp = some (true, trimmed) ↔
      0 < x_post ∧ x_post ≤ pp.X_res ∧ 0 < y_post ∧ y_post ≤ pp.Y_res) := by
  constructor
  · simp only [fovBegStage, hb]
    by_cases hacc : fovBegAccept x_pre y_pre pp.X_res pp.Y_res
    · rw [if_pos hacc]
      exact iff_of_true rfl hacc
    · rw [if_neg hacc]
      exact iff_of_false (by simp) hacc
  · simp only [fovEndStage, he]
    by_cases hacc : fovEndAccept x_post y_post pp.X_res pp.Y_res
    · rw [if_pos hacc]
      exact iff_of_true rfl hacc
    · rw [if_neg hacc]
      exact iff_of_false (by simp) hacc

/-- Witness for claim C4's amended theorem at a concrete track: the
begin stage of fovTrimInsideData (pre-begin point (100, 100)) and its
end stage (post-end point (170, 170)) on a 720x576 sensor. -/
theorem fov_boundary_bounds_witness :
    (fovBegStage fovTrimInsideData pp720 = some (true, fovTrimInsideData) ↔
      0 < (100 : ℚ) ∧ (100 : ℚ) ≤ pp720.X_res ∧ 0 < (100 : ℚ) ∧ (100 : ℚ) < pp720.Y_res) ∧
    (fovEndStage 2 fovTrimInsideData pp720 = some (true, fovTrimInsideData) ↔
      0 < (170 : ℚ) ∧ (170 : ℚ) ≤ pp720.X_res ∧ 0 < (170 : ℚ) ∧ (170 : ℚ) ≤ pp720.Y_res) :=
  fov_boundary_bounds fovTrimInsideData fovTrimInsideData 2 pp720 100 100 170 170
    (by norm_num [preBeginPoint, halfIndex, fovTrimInsideData, mkPick])
    (by norm_num [postEndPoint, fovTrimInsideData, mkPick])

/-- Claim C5: when the point extrapolated two frames before the first
pick (from the average per-frame pixel velocity over the first half of
the sequence) passes the source's field-of-view test, fov_beg is set
true and the first pick kept; otherwise fov_beg stays false and the
first pick is dropped.  In particular, a pre-begin point of (-5, 10) on
a 720x576 sensor gives fov_beg false with the first pick dropped, and
one of (100, 100) gives fov_beg true with all picks retained. -/
theorem fov_begin_trimming (data : List MeteorPointRMS) (pp : PlateparDummy)
    (x_pre y_pre : ℚ) (h : preBeginPoint data = some (x_pre, y_pre)) :
    (fovBegAccept x_pre y_pre pp.X_res pp.Y_res → fovBegStage data pp = some (true, data)) ∧
    (¬ fovBegAccept x_pre y_pre pp.X_res pp.Y_res →
      fovBegStage data pp = some (false, data.drop 1)) ∧
    (preBeginPoint fovTrimOutsideData = some (-5, 10) ∧
      fovProcess fovTrimOutsideData pp720 = some (false, true, fovTrimOutsideData.drop 1)) ∧
    (preBeginPoint fovTrimInsideData = some (100, 100) ∧
      fovProcess fovTrimInsideData pp720 = some (true, true, fovTrimInsideData)) := by
  refine ⟨?_, ?_, ⟨?_, ?_⟩, ⟨?_, ?_⟩⟩
  · intro hacc
    simp only [fovBegStage, h]
    rw [if_pos hacc]
  · intro hacc
    simp only [fovBegStage, h]
    rw [if_neg hacc]
  all_goals
    norm_num [fovProcess, fovBegStage, fovEndStage, preBeginPoint, postEndPoint, halfIndex,
      fovBegAccept, fovEndAccept, fovTrimOutsideData, fovTrimInsideData, mkPick, pp720]

/-- Witness for claim C5 at a concrete track: the pre-begin point of
fovTrimInsideData is (100, 100), inside the field of view, so the first
pick is kept and fov_beg is true. -/
theorem fov_begin_trimming_witness :
    fovBegStage fovTrimInsideData pp720 = some (true, fovTrimInsideData) :=
  (fov_begin_trimming fovTrimInsideData pp720 100 100
      (by norm_num [preBeginPoint, halfIndex, fovTrimInsideData, mkPick])).1
    (by norm_num [fovBegAccept, pp720])

/-- Claim C6: findTimePairs returns exactly the members of the pool
whose station differs from the given observation's station and whose
mean timestamp differs by at most max_toffset seconds in absolute
value; with mean times 100, 104, 200 at three stations and a 5-second
window, pairing A against [B, C] yields [B] only. -/
theorem find_time_pairs_spec :
    (∀ (met_obs : MeteorObsRMS) (pool : List MeteorObsRMS) (max_toffset : ℚ)
        (o : MeteorObsRMS),
        o ∈ findTimePairs met_obs pool max_toffset ↔
          o ∈ pool ∧ met_obs.station_code ≠ o.station_code ∧
            |met_obs.mean_dt - o.mean_dt| ≤ max_toffset) ∧
    findTimePairs obsA [obsB, obsC] 5 = [obsB] := by
  constructor
  · intro met_obs pool max_toffset o
    induction pool with
    | nil => simp [findTimePairs]
    | cons p rest ih =>
      simp only [findTimePairs]
      by_cases h1 : met_obs.station_code = p.station_code
      · rw [if_pos h1, ih]
        constructor
        · rintro ⟨hmem, hst, hdt⟩
          exact ⟨List.mem_cons_of_mem _ hmem, hst, hdt⟩
        · rintro ⟨hmem, hst, hdt⟩
          rcases List.mem_cons.1 hmem with rfl | hmem2
          · exact absurd h1 hst
          · exact ⟨hmem2, hst, hdt⟩
      · rw [if_neg h1]
        by_cases h2 : |met_obs.mean_dt - p.mean_dt| ≤ max_toffset
        · rw [if_pos h2]
          constructor
          · intro hmem
            rcases List.mem_cons.1 hmem with rfl | hmem2
            · exact ⟨List.mem_cons_self _ _, h1, h2⟩
            · obtain ⟨ha, hb, hc⟩ := ih.1 hmem2
              exact ⟨List.mem_cons_of_mem _ ha, hb, hc⟩
          · rintro ⟨hmem, hst, hdt⟩
            rcases List.mem_cons.1 hmem with rfl | hmem2
            · exact List.mem_cons_self _ _
            · exact List.mem_cons_of_mem _ (ih.2 ⟨hmem2, hst, hdt⟩)
        · rw [if_neg h2, ih]
          constructor
          · rintro ⟨hmem, hst, hdt⟩
            exact ⟨List.mem_cons_of_mem _ hmem, hst, hdt⟩
          · rintro ⟨hmem, hst, hdt⟩
            rcases List.mem_cons.1 hmem with rfl | hmem2
            · exact absurd hdt h2
            · exact ⟨hmem2, hst, hdt⟩
  · norm_num [findTimePairs, obsA, obsB, obsC]
    decide

/-- Claim C7: loadStations accepts a directory entry iff it is a
directory and its name matches the station pattern (two uppercase
letters then four uppercase letters or digits); of "AB1234", "ab1234",
"A1234" and "ABCDEFG", only "AB1234" is accepted. -/
theorem load_stations_spec :
    (∀ (dir_entries : List DirEntry) (name : String),
        name ∈ loadStations dir_entries ↔
          ∃ e ∈ dir_entries, e.name = name ∧ e.isDir = true ∧
            matchesStationPattern name = true) ∧
    loadStations stationEntries = ["AB1234"] := by
  constructor
  · intro dir_entries name
    induction dir_entries with
    | nil => simp [loadStations]
    | cons e rest ih =>
      simp only [loadStations]
      by_cases h : e.isDir && matchesStationPattern e.name
      · rw [if_pos h]
        rw [Bool.and_eq_true] at h
        obtain ⟨hdir, hpat⟩ := h
        constructor
        · intro hmem
          rcases List.mem_cons.1 hmem with rfl | hmem2
          · exact ⟨e, List.mem_cons_self _ _, rfl, hdir, hpat⟩
          · obtain ⟨x, hx, hnm, hd, hp⟩ := ih.1 hmem2
            exact ⟨x, List.mem_cons_of_mem _ hx, hnm, hd, hp⟩
        · rintro ⟨x, hx, hnm, hd, hp⟩
          rcases List.mem_cons.1 hx with rfl | hx2
          · exact hnm ▸ List.mem_cons_self _ _
          · exact List.mem_cons_of_mem _ (ih.2 ⟨x, hx2, hnm, hd, hp⟩)
      · rw [if_neg h, ih]
        constructor
        · rintro ⟨x, hx, hnm, hd, hp⟩
          exact ⟨x, List.mem_cons_of_mem _ hx, hnm, hd, hp⟩
        · rintro ⟨x, hx, hnm, hd, hp⟩
          rcases List.mem_cons.1 hx with rfl | hx2
          · exact absurd (by rw [hd, hnm, hp]; rfl) h
          · exact ⟨x, hx2, hnm, hd, hp⟩
  · decide

/-- Claim C8: a processing entry whose night timestamp is None is never
excluded by the time-range filter — for every range it passes on to the
file checks — while an entry with a parsed timestamp is skipped exactly
when its timestamp is strictly before the range begin or strictly after
the range end. -/
theorem none_timestamp_never_range_filtered (db : DatabaseJSON) (entry : ProcessingEntry)
    (rest : List ProcessingEntry) (dt_range : Option (ℚ × ℚ))
    (hnone : entry.night_dt = none) :
    nightOutsideRange dt_range entry.night_dt = false ∧
    (∀ dt_beg dt_end night : ℚ,
      nightOutsideRange (some (dt_beg, dt_end)) (some night) =
        (decide (night < dt_beg) || decide (night > dt_end))) ∧
    loadUnprocessedObservations db (entry :: rest) dt_range =
      processEntryStep db entry rest dt_range := by
  have h0 : nightOutsideRange dt_range entry.night_dt = false := by
    rw [hnone]
    rcases dt_range with _ | ⟨dt_beg, dt_end⟩ <;> rfl
  refine ⟨h0, fun _ _ _ => rfl, ?_⟩
  simp only [loadUnprocessedObservations, h0, Bool.false_eq_true, if_false]
  rfl

/-- Witness for claim C8 at a concrete entry: goodEntry has no parsed
timestamp, so under the range (0, 1) it is still processed (its save
runs and its observations are loaded). -/
theorem none_timestamp_never_range_filtered_witness :
    nightOutsideRange (some (0, 1)) goodEntry.night_dt = false ∧
    (∀ dt_beg dt_end night : ℚ,
      nightOutsideRange (some (dt_beg, dt_end)) (some night) =
        (decide (night < dt_beg) || decide (night > dt_end))) ∧
    loadUnprocessedObservations emptyDb (goodEntry :: []) (some (0, 1)) =
      processEntryStep emptyDb goodEntry [] (some (0, 1)) :=
  none_timestamp_never_range_filtered emptyDb goodEntry [] (some (0, 1)) rfl

end CorrelateRMS
